import Mathlib

/-!
Verification of the pybuzzers device-driver client (`src/pybuzzers/BuzzerSet.py`)
against its natural-language specification.

The Python source is shallowly embedded: pure functions become Lean functions,
the mutable `BuzzerSet` object becomes an explicit `Session` record threaded
through the operations, the process-wide instance registry becomes a `World`
record, and transport side effects (`open_path`, `write`) are logged in the
session so theorems can speak about the exact bytes issued.  Handler callbacks
are opaque: each registry maps a string label to an opaque handler identifier,
and dispatch produces a trace of `Event`s recording which handler of which
registry fired, with which arguments, in which order.
-/

namespace PyBuzzers

/-- Device paths are opaque byte strings (`path: bytes` in the source). -/
abbrev Bytes := List Nat

/-- A button-state grid: element (i, j) is button j on buzzer i. -/
abbrev Grid := List (List Bool)

/-! ## State Decoder (`BuzzerSet.__decode_state`) -/

/-- Embeds the comprehension
`[bool(num & 2 ** i) for num in data[2:5] for i in range(8)]`:
bytes at offsets 2, 3, 4 each contribute 8 bits, least significant first. -/
def decode_bits (data : List Nat) : List Bool :=
  ((data.drop 2).take 3).flatMap (fun num => (List.range 8).map (fun i => num.testBit i))

/-- Cell lookup in the flat bit list (Python `data[k]`); the default is never
reached for reports of at least 5 bytes, where the list has 24 entries. -/
def bit (data : List Nat) (k : Nat) : Bool := (decode_bits data).getD k false

/-- Embeds `BuzzerSet.__decode_state`: the 4×5 grid built from the flat bit
list, row c drawing its cells from positions 5c, 5c+4, 5c+3, 5c+2, 5c+1. -/
def decode_state (data : List Nat) : Grid :=
  [[bit data 0, bit data 4, bit data 3, bit data 2, bit data 1],
   [bit data 5, bit data 9, bit data 8, bit data 7, bit data 6],
   [bit data 10, bit data 14, bit data 13, bit data 12, bit data 11],
   [bit data 15, bit data 19, bit data 18, bit data 17, bit data 16]]

/-- Modelled from the spec: the 24-bit LSB-first field formed from report
bytes at offsets 2, 3, 4. -/
def spec_field (data : List Nat) : Nat :=
  data.getD 2 0 % 256 + 256 * (data.getD 3 0 % 256) + 65536 * (data.getD 4 0 % 256)

/-- Modelled from the spec: row c of the grid is the 5-bit cluster at bit
positions 5c..5c+4 of the field, permuted into button order
[bit0, bit4, bit3, bit2, bit1]. -/
def spec_grid_of_field (F : Nat) : Grid :=
  [[F.testBit 0, F.testBit 4, F.testBit 3, F.testBit 2, F.testBit 1],
   [F.testBit 5, F.testBit 9, F.testBit 8, F.testBit 7, F.testBit 6],
   [F.testBit 10, F.testBit 14, F.testBit 13, F.testBit 12, F.testBit 11],
   [F.testBit 15, F.testBit 19, F.testBit 18, F.testBit 17, F.testBit 16]]

/-! ## Sessions (`BuzzerSet` instances) -/

/-- A handler registry (`dict[str, Callable]`): insertion-ordered association
list from label to an opaque handler identifier.  `values()` iterates in list
order. -/
abbrev Registry := List (String × Nat)

/-- Python-dict assignment `d[k] = v`: overwrite in place if the key exists,
otherwise append at the end. -/
def dictSet {κ α : Type} [DecidableEq κ] : List (κ × α) → κ → α → List (κ × α)
  | [], k, v => [(k, v)]
  | (k', v') :: rest, k, v =>
      if k' = k then (k, v) :: rest else (k', v') :: dictSet rest k v

/-- Association-list lookup (`path in dict` / `dict[path]`). -/
def alookup {κ α : Type} [DecidableEq κ] : List (κ × α) → κ → Option α
  | [], _ => none
  | (k', v') :: rest, k => if k' = k then some v' else alookup rest k

/-- One `BuzzerSet` instance.  Transport side effects are logged: `opens`
records each `open_path` call and `writes` each `interface.write` call. -/
structure Session where
  path : Bytes
  label : Option String
  initialised : Bool
  state : Grid
  lights : List Bool
  on_change : Registry
  on_buzz : Registry
  on_button_down : Registry
  on_button_up : Registry
  opens : List Bytes
  writes : List (List Nat)
deriving DecidableEq

/-- `get_buttons_state`: returns the last-received state of the buttons. -/
def get_buttons_state (s : Session) : Grid := s.state

/-- `get_lights_state`: returns the stored light state. -/
def get_lights_state (s : Session) : List Bool := s.lights

/-! ## Handler registration

Each `on_*` method runs `label = label or str(handler)` (so a missing label
and the falsy empty string both fall back to the string identity of the
callback), stores the handler under that label, and returns the label.
`handlerStr` models Python's `str(handler)`. -/

/-- `label or str(handler)` for `label : Optional[str]`: `None` and `""` are
falsy, any other string is truthy. -/
def effective_label (handlerStr : String) (label : Option String) : String :=
  match label with
  | none => handlerStr
  | some str => if str = "" then handlerStr else str

/-- Common body of the four registration methods: store the handler in the
given registry under the effective label and return that label. -/
def register (d : Registry) (handler : Nat) (handlerStr : String)
    (label : Option String) : Registry × String :=
  (dictSet d (effective_label handlerStr label) handler, effective_label handlerStr label)

/-- `on_change(handler, label=None)`. -/
def on_change (s : Session) (handler : Nat) (handlerStr : String)
    (label : Option String) : Session × String :=
  ({ s with on_change := (register s.on_change handler handlerStr label).1 },
   (register s.on_change handler handlerStr label).2)

/-- `on_buzz(handler, label=None)`. -/
def on_buzz (s : Session) (handler : Nat) (handlerStr : String)
    (label : Option String) : Session × String :=
  ({ s with on_buzz := (register s.on_buzz handler handlerStr label).1 },
   (register s.on_buzz handler handlerStr label).2)

/-- `on_button_down(handler, label=None)`. -/
def on_button_down (s : Session) (handler : Nat) (handlerStr : String)
    (label : Option String) : Session × String :=
  ({ s with on_button_down := (register s.on_button_down handler handlerStr label).1 },
   (register s.on_button_down handler handlerStr label).2)

/-- `on_button_up(handler, label=None)`. -/
def on_button_up (s : Session) (handler : Nat) (handlerStr : String)
    (label : Option String) : Session × String :=
  ({ s with on_button_up := (register s.on_button_up handler handlerStr label).1 },
   (register s.on_button_up handler handlerStr label).2)

/-! ## Lights -/

/-- The 8-byte light command `[0x0, 0x0, *binLights, 0x0, 0x0]` with
`binLights = [0xFF if light else 0x00 for light in lights]`. -/
def lightCommand (lights : List Bool) : List Nat :=
  [0x00, 0x00] ++ lights.map (fun light => if light then 0xFF else 0x00) ++ [0x00, 0x00]

/-- `set_lights(lights)`.  The source assigns `self.__lights = lights` first
and then performs the transport write, which may raise.  `writeOk` is the
write outcome; the returned Bool is `true` on success and `false` when the
write raised (in which case the exception propagates to the caller and no
write is logged, but the mutations made before the raise remain). -/
def set_lights (s : Session) (lights : List Bool) (writeOk : Bool) : Session × Bool :=
  let s := { s with lights := lights }
  if writeOk then ({ s with writes := s.writes ++ [lightCommand lights] }, true)
  else (s, false)

/-- `set_light(buzzer, light)`: mutate one element of `self.__lights` in
place, then call `set_lights` with the (now updated) full list. -/
def set_light (s : Session) (buzzer : Nat) (light : Bool) (writeOk : Bool) :
    Session × Bool :=
  set_lights { s with lights := s.lights.set buzzer light }
    (s.lights.set buzzer light) writeOk

/-- `set_lights_on()`. -/
def set_lights_on (s : Session) (writeOk : Bool) : Session × Bool :=
  set_lights s (List.replicate 4 true) writeOk

/-- `set_lights_off()`. -/
def set_lights_off (s : Session) (writeOk : Bool) : Session × Bool :=
  set_lights s (List.replicate 4 false) writeOk

/-! ## Event dispatch (`BuzzerSet.__handle_event`) -/

/-- One handler invocation, recording the registry it came from, the label of
the handler fired, and the arguments passed. -/
inductive Event where
  | change (label : String)
  | buttonDown (label : String) (buzzer button : Nat)
  | buzz (label : String) (buzzer : Nat)
  | buttonUp (label : String) (buzzer button : Nat)
deriving DecidableEq

/-- Cell (buzzer, button) of a grid (`state[buzzer][button]`); the defaults
are never reached on 4×5 grids. -/
def cell (g : Grid) (buzzer button : Nat) : Bool := (g.getD buzzer []).getD button false

/-- `[(buzzer, button) for buzzer in range(4) for button in range(5)
if new_state[buzzer][button] and not old_state[buzzer][button]]`. -/
def button_downs (old new : Grid) : List (Nat × Nat) :=
  (List.range 4).flatMap (fun buzzer =>
    ((List.range 5).filter
        (fun button => cell new buzzer button && !cell old buzzer button)).map
      (fun button => (buzzer, button)))

/-- `[(buzzer, button) for buzzer in range(4) for button in range(5)
if not new_state[buzzer][button] and old_state[buzzer][button]]`. -/
def button_ups (old new : Grid) : List (Nat × Nat) :=
  (List.range 4).flatMap (fun buzzer =>
    ((List.range 5).filter
        (fun button => !cell new buzzer button && cell old buzzer button)).map
      (fun button => (buzzer, button)))

/-- The on-change loop: `for event in self.__on_change.values(): event(self, new_state)`. -/
def change_events (r : Registry) : List Event := r.map (fun h => Event.change h.1)

/-- The button-down loop: for each down cell, fire every button-down handler,
then — if the button is the primary (index 0) — every buzz handler. -/
def down_events (bdown bzz : Registry) (downs : List (Nat × Nat)) : List Event :=
  downs.flatMap (fun p =>
    bdown.map (fun h => Event.buttonDown h.1 p.1 p.2) ++
      if p.2 = 0 then bzz.map (fun h => Event.buzz h.1 p.1) else [])

/-- The button-up loop: for each up cell, fire every button-up handler. -/
def up_events (bup : Registry) (ups : List (Nat × Nat)) : List Event :=
  ups.flatMap (fun p => bup.map (fun h => Event.buttonUp h.1 p.1 p.2))

/-- `__handle_event(new_state)`: store the new state, diff against the old
one, return early when both change lists are empty (`any` on a list of pairs
is just non-emptiness, 2-tuples being truthy), otherwise fire change,
button-down/buzz and button-up handlers in that order.  Returns the updated
session and the trace of handler invocations. -/
def handle_event (s : Session) (new_state : Grid) : Session × List Event :=
  let old_state := s.state
  let downs := button_downs old_state new_state
  let ups := button_ups old_state new_state
  ({ s with state := new_state },
   if downs.isEmpty && ups.isEmpty then []
   else
     change_events s.on_change ++ down_events s.on_button_down s.on_buzz downs ++
       up_events s.on_button_up ups)

/-! ## Specification-side notions for the dispatch claims -/

/-- Does this event come from the change registry? -/
def isChangeEvent : Event → Bool
  | .change _ => true
  | _ => false

/-- Does this event come from the button-down registry? -/
def isDownEvent : Event → Bool
  | .buttonDown _ _ _ => true
  | _ => false

/-- Does this event come from the button-up registry? -/
def isUpEvent : Event → Bool
  | .buttonUp _ _ _ => true
  | _ => false

/-- Is this a buzz firing for the given buzzer? -/
def isBuzzAtEvent (buzzer : Nat) : Event → Bool
  | .buzz _ b => b == buzzer
  | _ => false

/-- Is this a button-down firing for the given cell? -/
def isDownAtEvent (buzzer button : Nat) : Event → Bool
  | .buttonDown _ b c => b == buzzer && c == button
  | _ => false

/-- The dispatch phase an event belongs to: change handlers fire in phase 0,
button-down and buzz handlers in phase 1, button-up handlers in phase 2. -/
def phase : Event → Nat
  | .change _ => 0
  | .buttonDown _ _ _ => 1
  | .buzz _ _ => 1
  | .buttonUp _ _ _ => 2

/-- The 20 cell coordinates of a 4×5 grid. -/
def allCells : List (Nat × Nat) :=
  (List.range 4).flatMap (fun buzzer => (List.range 5).map (fun button => (buzzer, button)))

/-- Specification-side count of cells with old = false and new = true. -/
def numDownTransitions (old new : Grid) : Nat :=
  allCells.countP (fun p => !cell old p.1 p.2 && cell new p.1 p.2)

/-- Specification-side count of cells with old = true and new = false. -/
def numUpTransitions (old new : Grid) : Nat :=
  allCells.countP (fun p => cell old p.1 p.2 && !cell new p.1 p.2)

/-- Specification-side: at least one of the 20 cells differs between the grids. -/
def cellsDiffer (old new : Grid) : Prop :=
  ∃ buzzer, buzzer < 4 ∧ ∃ button, button < 5 ∧
    cell old buzzer button ≠ cell new buzzer button

instance (old new : Grid) : Decidable (cellsDiffer old new) := by
  unfold cellsDiffer; infer_instance

/-! ## Construction (`__new__` / `__init__`) and the instance registry -/

/-- `__init__` on a fresh instance (the write of `set_lights_off` assumed to
succeed): record the path and label, set all four lights off and all twenty
buttons unpressed, start with empty handler registries, open the transport at
the path, and issue the all-off light write. -/
def init_session (path : Bytes) (label : Option String) : Session :=
  let s : Session :=
    { path := path
      label := label
      initialised := true
      state := List.replicate 4 (List.replicate 5 false)
      lights := List.replicate 4 false
      on_change := []
      on_buzz := []
      on_button_down := []
      on_button_up := []
      opens := [path]
      writes := [] }
  (set_lights_off s true).1

/-- The process-wide picture: `BuzzerSet.__existing_buzzer_sets` maps each
path to an instance, instances being identified by a numeric id allocated in
creation order; `sessions` maps each id to the instance's current state. -/
structure World where
  existing_buzzer_sets : List (Bytes × Nat)
  sessions : List (Nat × Session)
  nextId : Nat

/-- `BuzzerSet(path)`: `__new__` returns the registered instance for `path`
if there is one, else registers a fresh instance; `__init__` then runs on the
returned instance but returns immediately when it is already initialised.
Returns the updated world and the id of the instance the call returned. -/
def construct (w : World) (path : Bytes) (label : Option String) : World × Nat :=
  match alookup w.existing_buzzer_sets path with
  | some i =>
    match alookup w.sessions i with
    | some s =>
      if s.initialised then (w, i)
      else ({ w with sessions := dictSet w.sessions i (init_session path label) }, i)
    | none => (w, i)
  | none =>
    let i := w.nextId
    ({ existing_buzzer_sets := w.existing_buzzer_sets ++ [(path, i)]
       sessions := w.sessions ++ [(i, init_session path label)]
       nextId := i + 1 }, i)

/-- Well-formedness of the process-wide picture, holding in any run that only
constructs sessions: registered instance ids are allocated ids (below
`nextId`), every registered path maps to an initialised session, and distinct
paths map to distinct instances. -/
def World.WF (w : World) : Prop :=
  (∀ e ∈ w.sessions, e.1 < w.nextId) ∧
  (∀ p i, alookup w.existing_buzzer_sets p = some i →
    ∃ s, alookup w.sessions i = some s ∧ s.initialised = true) ∧
  (∀ p q i, alookup w.existing_buzzer_sets p = some i →
    alookup w.existing_buzzer_sets q = some i → p = q) ∧
  (∀ p i, alookup w.existing_buzzer_sets p = some i → i < w.nextId)

/-- The process state before any `BuzzerSet` has been constructed. -/
def emptyWorld : World :=
  { existing_buzzer_sets := []
    sessions := []
    nextId := 0 }

/-! ## Concrete fixtures used to witness the theorems -/

/-- A concrete initialised session with one handler in each registry. -/
def sampleSession : Session :=
  { path := [7]
    label := none
    initialised := true
    state := List.replicate 4 (List.replicate 5 false)
    lights := List.replicate 4 false
    on_change := [("c", 0)]
    on_buzz := [("z", 1)]
    on_button_down := [("d", 2)]
    on_button_up := [("u", 3)]
    opens := [[7]]
    writes := [] }

/-- A concrete grid: only the primary button of controller 0 is pressed. -/
def sampleGrid : Grid :=
  [[true, false, false, false, false],
   [false, false, false, false, false],
   [false, false, false, false, false],
   [false, false, false, false, false]]

/-! ## Proofs: the State Decoder -/

lemma eq_cons_of_five_le {α : Type} (l : List α) (h : 5 ≤ l.length) :
    ∃ a b c d e t, l = a :: b :: c :: d :: e :: t := by
  rcases l with _ | ⟨a, _ | ⟨b, _ | ⟨c, _ | ⟨d, _ | ⟨e, t⟩⟩⟩⟩⟩
  all_goals simp only [List.length_nil, List.length_cons] at h
  all_goals first
    | exact ⟨a, b, c, d, e, t, rfl⟩
    | omega

lemma decode_state_eq_spec (data : List Nat) (h : 5 ≤ data.length) :
    decode_state data = spec_grid_of_field (spec_field data) := by
  obtain ⟨b0, b1, b2, b3, b4, t, rfl⟩ := eq_cons_of_five_le data h
  show [[b2.testBit 0, b2.testBit 4, b2.testBit 3, b2.testBit 2, b2.testBit 1],
        [b2.testBit 5, b3.testBit 1, b3.testBit 0, b2.testBit 7, b2.testBit 6],
        [b3.testBit 2, b3.testBit 6, b3.testBit 5, b3.testBit 4, b3.testBit 3],
        [b3.testBit 7, b4.testBit 3, b4.testBit 2, b4.testBit 1, b4.testBit 0]] =
      spec_grid_of_field (b2 % 256 + 256 * (b3 % 256) + 65536 * (b4 % 256))
  simp only [spec_grid_of_field, List.cons.injEq, and_true]
  repeat' apply And.intro
  all_goals
    simp only [Nat.testBit_to_div_mod]
    rw [decide_eq_decide]
    omega

/-- The grid built from a field only reads bits 0..19, so fields that agree
modulo 2^20 produce the same grid. -/
lemma spec_grid_of_field_congr (F F' : Nat) (h : F % 2 ^ 20 = F' % 2 ^ 20) :
    spec_grid_of_field F = spec_grid_of_field F' := by
  have hb : ∀ k, k < 20 → F.testBit k = F'.testBit k := by
    intro k hk
    have h1 : (F % 2 ^ 20).testBit k = F.testBit k := by
      rw [Nat.testBit_mod_two_pow]; simp [hk]
    have h2 : (F' % 2 ^ 20).testBit k = F'.testBit k := by
      rw [Nat.testBit_mod_two_pow]; simp [hk]
    rw [← h1, ← h2, h]
  simp only [spec_grid_of_field]
  rw [hb 0 (by omega), hb 1 (by omega), hb 2 (by omega), hb 3 (by omega),
    hb 4 (by omega), hb 5 (by omega), hb 6 (by omega), hb 7 (by omega),
    hb 8 (by omega), hb 9 (by omega), hb 10 (by omega), hb 11 (by omega),
    hb 12 (by omega), hb 13 (by omega), hb 14 (by omega), hb 15 (by omega),
    hb 16 (by omega), hb 17 (by omega), hb 18 (by omega), hb 19 (by omega)]

/-- Claim C1: for every raw report of at least 5 bytes, the decoder produces the
4×5 grid whose row c is the 5-bit cluster at bits 5c..5c+4 of the 24-bit
LSB-first field formed from report bytes at offsets 2, 3, 4, permuted into
button order [bit0, bit4, bit3, bit2, bit1]; and bits 20..23 of the field never
affect the result (any two reports whose fields agree modulo 2^20 decode
identically). -/
theorem decode_state_spec (data : List Nat) (h : 5 ≤ data.length) :
    decode_state data = spec_grid_of_field (spec_field data) ∧
    ∀ data', 5 ≤ data'.length → spec_field data' % 2 ^ 20 = spec_field data % 2 ^ 20 →
      decode_state data' = decode_state data := by
  refine ⟨decode_state_eq_spec data h, fun data' h' hf => ?_⟩
  rw [decode_state_eq_spec data h, decode_state_eq_spec data' h']
  exact spec_grid_of_field_congr _ _ hf

/-- Witness for C1 at the concrete report [0, 0, 1, 0, 0]: only the primary
button of controller 0 is pressed. -/
theorem decode_state_spec_witness :
    5 ≤ ([0, 0, 1, 0, 0] : List Nat).length ∧
    (decode_state [0, 0, 1, 0, 0] = spec_grid_of_field (spec_field [0, 0, 1, 0, 0]) ∧
     ∀ data', 5 ≤ data'.length →
       spec_field data' % 2 ^ 20 = spec_field [0, 0, 1, 0, 0] % 2 ^ 20 →
       decode_state data' = decode_state [0, 0, 1, 0, 0]) :=
  ⟨by decide, decode_state_spec [0, 0, 1, 0, 0] (by decide)⟩

/-! ## Proofs: dispatch bookkeeping -/

lemma countP_flatMap {α β : Type} (p : β → Bool) (f : α → List β) (l : List α) :
    (l.flatMap f).countP p = (l.map (fun a => (f a).countP p)).sum := by
  induction l with
  | nil => simp
  | cons a t ih => simp [List.flatMap_cons, List.countP_append, ih]

lemma sum_map_const {α : Type} (l : List α) (c : Nat) :
    (l.map (fun _ => c)).sum = l.length * c := by
  induction l with
  | nil => simp
  | cons a t ih =>
    simp only [List.map_cons, List.sum_cons, ih, List.length_cons, Nat.succ_mul]
    omega

lemma sum_map_ite_eq {α : Type} [DecidableEq α] (l : List α) (hn : l.Nodup) (a : α) (c : Nat) :
    (l.map (fun x => if x = a then c else 0)).sum = if a ∈ l then c else 0 := by
  induction l with
  | nil => simp
  | cons x t ih =>
    rcases List.nodup_cons.mp hn with ⟨hx, ht⟩
    rw [List.map_cons, List.sum_cons, ih ht]
    by_cases h : x = a
    · subst h
      rw [if_pos rfl, if_neg hx, if_pos (List.mem_cons_self x t), Nat.add_zero]
    · rw [if_neg h]
      by_cases hm : a ∈ t
      · rw [if_pos hm, if_pos (List.mem_cons_of_mem x hm), Nat.zero_add]
      · rw [if_neg hm, if_neg ?hnm, Nat.add_zero]
        case hnm =>
          intro hcm
          rcases List.mem_cons.mp hcm with ha | ha
          · exact h ha.symm
          · exact hm ha

lemma length_button_downs (old new : Grid) :
    (button_downs old new).length = numDownTransitions old new := by
  rw [button_downs, numDownTransitions, allCells, List.length_flatMap, countP_flatMap]
  apply congrArg List.sum
  apply List.map_congr_left
  intro buzzer _
  simp only [Function.comp_apply, List.length_map, List.countP_map,
    ← List.countP_eq_length_filter]
  apply List.countP_congr
  intro button _
  cases h1 : cell old buzzer button <;> cases h2 : cell new buzzer button <;>
    simp [h1, h2]

lemma length_button_ups (old new : Grid) :
    (button_ups old new).length = numUpTransitions old new := by
  rw [button_ups, numUpTransitions, allCells, List.length_flatMap, countP_flatMap]
  apply congrArg List.sum
  apply List.map_congr_left
  intro buzzer _
  simp only [Function.comp_apply, List.length_map, List.countP_map,
    ← List.countP_eq_length_filter]
  apply List.countP_congr
  intro button _
  cases h1 : cell old buzzer button <;> cases h2 : cell new buzzer button <;>
    simp [h1, h2]

lemma mem_button_downs (old new : Grid) (bz bt : Nat) :
    (bz, bt) ∈ button_downs old new ↔
      bz < 4 ∧ bt < 5 ∧ cell old bz bt = false ∧ cell new bz bt = true := by
  simp only [button_downs, List.mem_flatMap, List.mem_map, List.mem_filter, List.mem_range]
  constructor
  · rintro ⟨a, ha, b, ⟨hb, hpred⟩, heq⟩
    cases heq
    simp only [Bool.and_eq_true, Bool.not_eq_true'] at hpred
    exact ⟨ha, hb, hpred.2, hpred.1⟩
  · rintro ⟨hbz, hbt, ho, hn⟩
    exact ⟨bz, hbz, bt, ⟨hbt, by rw [ho, hn]; rfl⟩, rfl⟩

lemma mem_button_ups (old new : Grid) (bz bt : Nat) :
    (bz, bt) ∈ button_ups old new ↔
      bz < 4 ∧ bt < 5 ∧ cell old bz bt = true ∧ cell new bz bt = false := by
  simp only [button_ups, List.mem_flatMap, List.mem_map, List.mem_filter, List.mem_range]
  constructor
  · rintro ⟨a, ha, b, ⟨hb, hpred⟩, heq⟩
    cases heq
    simp only [Bool.and_eq_true, Bool.not_eq_true'] at hpred
    exact ⟨ha, hb, hpred.2, hpred.1⟩
  · rintro ⟨hbz, hbt, ho, hn⟩
    exact ⟨bz, hbz, bt, ⟨hbt, by rw [ho, hn]; rfl⟩, rfl⟩

lemma no_transitions_iff (old new : Grid) :
    (button_downs old new = [] ∧ button_ups old new = []) ↔ ¬ cellsDiffer old new := by
  constructor
  · rintro ⟨hdowns, hups⟩ ⟨bz, hbz, bt, hbt, hne⟩
    cases ho : cell old bz bt <;> cases hn : cell new bz bt
    · exact hne (ho.trans hn.symm)
    · have hm : (bz, bt) ∈ button_downs old new :=
        (mem_button_downs old new bz bt).mpr ⟨hbz, hbt, ho, hn⟩
      rw [hdowns] at hm
      exact absurd hm (List.not_mem_nil _)
    · have hm : (bz, bt) ∈ button_ups old new :=
        (mem_button_ups old new bz bt).mpr ⟨hbz, hbt, ho, hn⟩
      rw [hups] at hm
      exact absurd hm (List.not_mem_nil _)
    · exact hne (ho.trans hn.symm)
  · intro h
    constructor
    · rw [List.eq_nil_iff_forall_not_mem]
      rintro ⟨bz, bt⟩ hmem
      rw [mem_button_downs] at hmem
      exact h ⟨bz, hmem.1, bt, hmem.2.1, by
        rw [hmem.2.2.1, hmem.2.2.2]; decide⟩
    · rw [List.eq_nil_iff_forall_not_mem]
      rintro ⟨bz, bt⟩ hmem
      rw [mem_button_ups] at hmem
      exact h ⟨bz, hmem.1, bt, hmem.2.1, by
        rw [hmem.2.2.1, hmem.2.2.2]; decide⟩

lemma countP_change_events (r : Registry) (q : Event → Bool) :
    (change_events r).countP q = r.countP (fun h => q (Event.change h.1)) := by
  rw [change_events, List.countP_map]
  rfl

lemma countP_down_events (bdown bzz : Registry) (downs : List (Nat × Nat)) (q : Event → Bool) :
    (down_events bdown bzz downs).countP q =
      (downs.map (fun p =>
        bdown.countP (fun h => q (Event.buttonDown h.1 p.1 p.2)) +
          if p.2 = 0 then bzz.countP (fun h => q (Event.buzz h.1 p.1)) else 0)).sum := by
  rw [down_events, countP_flatMap]
  apply congrArg List.sum
  apply List.map_congr_left
  intro p _
  by_cases h0 : p.2 = 0
  · simp only [if_pos h0, List.countP_append, List.countP_map]
    rfl
  · simp only [if_neg h0, List.countP_append, List.countP_map, List.countP_nil]
    rfl

lemma countP_up_events (bup : Registry) (ups : List (Nat × Nat)) (q : Event → Bool) :
    (up_events bup ups).countP q =
      (ups.map (fun p => bup.countP (fun h => q (Event.buttonUp h.1 p.1 p.2)))).sum := by
  rw [up_events, countP_flatMap]
  apply congrArg List.sum
  apply List.map_congr_left
  intro p _
  rw [List.countP_map]
  rfl

lemma mem_change_events (r : Registry) (e : Event) (he : e ∈ change_events r) :
    ∃ lab, e = Event.change lab := by
  simp only [change_events, List.mem_map] at he
  obtain ⟨h, _, rfl⟩ := he
  exact ⟨h.1, rfl⟩

lemma mem_down_events (bdown bzz : Registry) (downs : List (Nat × Nat)) (e : Event)
    (he : e ∈ down_events bdown bzz downs) :
    (∃ lab p, p ∈ downs ∧ e = Event.buttonDown lab p.1 p.2) ∨
      (∃ lab p, p ∈ downs ∧ p.2 = 0 ∧ e = Event.buzz lab p.1) := by
  simp only [down_events, List.mem_flatMap, List.mem_append] at he
  obtain ⟨p, hp, he | he⟩ := he
  · rw [List.mem_map] at he
    obtain ⟨h, _, rfl⟩ := he
    exact Or.inl ⟨h.1, p, hp, rfl⟩
  · by_cases h0 : p.2 = 0
    · rw [if_pos h0, List.mem_map] at he
      obtain ⟨h, _, rfl⟩ := he
      exact Or.inr ⟨h.1, p, hp, h0, rfl⟩
    · rw [if_neg h0] at he
      exact absurd he (List.not_mem_nil e)

lemma mem_up_events (bup : Registry) (ups : List (Nat × Nat)) (e : Event)
    (he : e ∈ up_events bup ups) :
    ∃ lab p, p ∈ ups ∧ e = Event.buttonUp lab p.1 p.2 := by
  simp only [up_events, List.mem_flatMap, List.mem_map] at he
  obtain ⟨p, hp, h, _, rfl⟩ := he
  exact ⟨h.1, p, hp, rfl⟩

lemma nodup_button_downs (old new : Grid) : (button_downs old new).Nodup := by
  rw [button_downs, List.nodup_flatMap]
  constructor
  · intro x _
    exact List.Nodup.map (fun a b hab => congrArg Prod.snd hab)
      (List.Nodup.filter _ (List.nodup_range 5))
  · apply List.Pairwise.imp ?_ (List.pairwise_lt_range 4)
    intro a b hab x hxa hxb
    simp only [List.mem_map] at hxa hxb
    obtain ⟨u, _, rfl⟩ := hxa
    obtain ⟨v, _, hv⟩ := hxb
    have hba : b = a := congrArg Prod.fst hv
    omega

lemma handle_event_snd (s : Session) (new_state : Grid) :
    (handle_event s new_state).2 =
      if (button_downs s.state new_state).isEmpty && (button_ups s.state new_state).isEmpty
      then []
      else
        change_events s.on_change ++
          down_events s.on_button_down s.on_buzz (button_downs s.state new_state) ++
          up_events s.on_button_up (button_ups s.state new_state) := rfl

lemma handle_event_snd_of_changes (s : Session) (new_state : Grid)
    (hc : ¬(button_downs s.state new_state = [] ∧ button_ups s.state new_state = [])) :
    (handle_event s new_state).2 =
      change_events s.on_change ++
        down_events s.on_button_down s.on_buzz (button_downs s.state new_state) ++
        up_events s.on_button_up (button_ups s.state new_state) := by
  have hcond : ¬((button_downs s.state new_state).isEmpty &&
      (button_ups s.state new_state).isEmpty) = true := by
    intro hco
    rw [Bool.and_eq_true] at hco
    exact hc ⟨List.isEmpty_iff.mp hco.1, List.isEmpty_iff.mp hco.2⟩
  rw [handle_event_snd, if_neg hcond]

lemma trace_countP_down (s : Session) (new_state : Grid) :
    (handle_event s new_state).2.countP isDownEvent =
      s.on_button_down.length * numDownTransitions s.state new_state := by
  by_cases hc : button_downs s.state new_state = [] ∧ button_ups s.state new_state = []
  · have htr : (handle_event s new_state).2 = [] := by
      rw [handle_event_snd, hc.1, hc.2]
      rfl
    rw [htr, ← length_button_downs, hc.1]
    simp
  · rw [handle_event_snd_of_changes s new_state hc, List.countP_append, List.countP_append,
      countP_change_events, countP_down_events, countP_up_events]
    have h1 : s.on_change.countP (fun h => isDownEvent (Event.change h.1)) = 0 :=
      List.countP_eq_zero.mpr (fun a _ => by simp [isDownEvent])
    have h2 : List.map (fun p =>
          s.on_button_down.countP (fun h => isDownEvent (Event.buttonDown h.1 p.1 p.2)) +
            if p.2 = 0 then s.on_buzz.countP (fun h => isDownEvent (Event.buzz h.1 p.1)) else 0)
          (button_downs s.state new_state) =
        List.map (fun _ => s.on_button_down.length) (button_downs s.state new_state) := by
      apply List.map_congr_left
      intro p _
      have ha : s.on_button_down.countP
          (fun h => isDownEvent (Event.buttonDown h.1 p.1 p.2)) = s.on_button_down.length := by
        rw [show (fun (h : String × Nat) => isDownEvent (Event.buttonDown h.1 p.1 p.2)) =
          (fun _ => true) from rfl, List.countP_true]
      have hb : s.on_buzz.countP (fun h => isDownEvent (Event.buzz h.1 p.1)) = 0 :=
        List.countP_eq_zero.mpr (fun a _ => by simp [isDownEvent])
      rw [ha, hb, ite_self, Nat.add_zero]
    have h3 : List.map (fun p =>
          s.on_button_up.countP (fun h => isDownEvent (Event.buttonUp h.1 p.1 p.2)))
          (button_ups s.state new_state) =
        List.map (fun _ => (0 : Nat)) (button_ups s.state new_state) := by
      apply List.map_congr_left
      intro p _
      exact List.countP_eq_zero.mpr (fun a _ => by simp [isDownEvent])
    rw [h1, h2, h3, sum_map_const, sum_map_const, ← length_button_downs]
    ring

lemma trace_countP_up (s : Session) (new_state : Grid) :
    (handle_event s new_state).2.countP isUpEvent =
      s.on_button_up.length * numUpTransitions s.state new_state := by
  by_cases hc : button_downs s.state new_state = [] ∧ button_ups s.state new_state = []
  · have htr : (handle_event s new_state).2 = [] := by
      rw [handle_event_snd, hc.1, hc.2]
      rfl
    rw [htr, ← length_button_ups, hc.2]
    simp
  · rw [handle_event_snd_of_changes s new_state hc, List.countP_append, List.countP_append,
      countP_change_events, countP_down_events, countP_up_events]
    have h1 : s.on_change.countP (fun h => isUpEvent (Event.change h.1)) = 0 :=
      List.countP_eq_zero.mpr (fun a _ => by simp [isUpEvent])
    have h2 : List.map (fun p =>
          s.on_button_down.countP (fun h => isUpEvent (Event.buttonDown h.1 p.1 p.2)) +
            if p.2 = 0 then s.on_buzz.countP (fun h => isUpEvent (Event.buzz h.1 p.1)) else 0)
          (button_downs s.state new_state) =
        List.map (fun _ => (0 : Nat)) (button_downs s.state new_state) := by
      apply List.map_congr_left
      intro p _
      have ha : s.on_button_down.countP
          (fun h => isUpEvent (Event.buttonDown h.1 p.1 p.2)) = 0 :=
        List.countP_eq_zero.mpr (fun a _ => by simp [isUpEvent])
      have hb : s.on_buzz.countP (fun h => isUpEvent (Event.buzz h.1 p.1)) = 0 :=
        List.countP_eq_zero.mpr (fun a _ => by simp [isUpEvent])
      rw [ha, hb, ite_self, Nat.add_zero]
    have h3 : List.map (fun p =>
          s.on_button_up.countP (fun h => isUpEvent (Event.buttonUp h.1 p.1 p.2)))
          (button_ups s.state new_state) =
        List.map (fun _ => s.on_button_up.length) (button_ups s.state new_state) := by
      apply List.map_congr_left
      intro p _
      rw [show (fun (h : String × Nat) => isUpEvent (Event.buttonUp h.1 p.1 p.2)) =
        (fun _ => true) from rfl, List.countP_true]
    rw [h1, h2, h3, sum_map_const, sum_map_const, ← length_button_ups]
    ring

lemma trace_countP_buzzAt (s : Session) (new_state : Grid) (bz : Nat) :
    (handle_event s new_state).2.countP (isBuzzAtEvent bz) =
      if (bz, 0) ∈ button_downs s.state new_state then s.on_buzz.length else 0 := by
  by_cases hc : button_downs s.state new_state = [] ∧ button_ups s.state new_state = []
  · have htr : (handle_event s new_state).2 = [] := by
      rw [handle_event_snd, hc.1, hc.2]
      rfl
    rw [htr, hc.1]
    simp
  · rw [handle_event_snd_of_changes s new_state hc, List.countP_append, List.countP_append,
      countP_change_events, countP_down_events, countP_up_events]
    have h1 : s.on_change.countP (fun h => isBuzzAtEvent bz (Event.change h.1)) = 0 :=
      List.countP_eq_zero.mpr (fun a _ => by simp [isBuzzAtEvent])
    have h3 : List.map (fun p =>
          s.on_button_up.countP (fun h => isBuzzAtEvent bz (Event.buttonUp h.1 p.1 p.2)))
          (button_ups s.state new_state) =
        List.map (fun _ => (0 : Nat)) (button_ups s.state new_state) :=
      List.map_congr_left (fun p _ =>
        List.countP_eq_zero.mpr (fun a _ => by simp [isBuzzAtEvent]))
    have h2 : List.map (fun p =>
          s.on_button_down.countP (fun h => isBuzzAtEvent bz (Event.buttonDown h.1 p.1 p.2)) +
            if p.2 = 0 then
              s.on_buzz.countP (fun h => isBuzzAtEvent bz (Event.buzz h.1 p.1)) else 0)
          (button_downs s.state new_state) =
        List.map (fun p => if p = (bz, 0) then s.on_buzz.length else 0)
          (button_downs s.state new_state) := by
      apply List.map_congr_left
      intro p _
      have ha : s.on_button_down.countP
          (fun h => isBuzzAtEvent bz (Event.buttonDown h.1 p.1 p.2)) = 0 :=
        List.countP_eq_zero.mpr (fun a _ => by simp [isBuzzAtEvent])
      rw [ha, Nat.zero_add]
      by_cases h0 : p.2 = 0
      · rw [if_pos h0]
        by_cases hpb : p.1 = bz
        · have hiz : s.on_buzz.countP (fun h => isBuzzAtEvent bz (Event.buzz h.1 p.1)) =
              s.on_buzz.length := by
            rw [show (fun (h : String × Nat) => isBuzzAtEvent bz (Event.buzz h.1 p.1)) =
              (fun (_ : String × Nat) => (p.1 == bz)) from rfl, hpb]
            simp [List.countP_true]
          rw [hiz, if_pos (by rw [Prod.ext_iff]; exact ⟨hpb, h0⟩)]
        · have hiz : s.on_buzz.countP (fun h => isBuzzAtEvent bz (Event.buzz h.1 p.1)) = 0 :=
            List.countP_eq_zero.mpr (fun a _ => by simp [isBuzzAtEvent, hpb])
          rw [hiz, if_neg (by rw [Prod.ext_iff]; exact fun hco => hpb hco.1)]
      · rw [if_neg h0, if_neg (by rw [Prod.ext_iff]; exact fun hco => h0 hco.2)]
    rw [h1, h2, h3, sum_map_const,
      sum_map_ite_eq _ (nodup_button_downs s.state new_state) (bz, 0) s.on_buzz.length,
      Nat.mul_zero, Nat.add_zero, Nat.zero_add]
    by_cases hm : (bz, 0) ∈ button_downs s.state new_state
    · rw [if_pos hm, if_pos hm]
    · rw [if_neg hm, if_neg hm]

lemma trace_countP_downAt (s : Session) (new_state : Grid) (bz bt : Nat) :
    (handle_event s new_state).2.countP (isDownAtEvent bz bt) =
      if (bz, bt) ∈ button_downs s.state new_state then s.on_button_down.length else 0 := by
  by_cases hc : button_downs s.state new_state = [] ∧ button_ups s.state new_state = []
  · have htr : (handle_event s new_state).2 = [] := by
      rw [handle_event_snd, hc.1, hc.2]
      rfl
    rw [htr, hc.1]
    simp
  · rw [handle_event_snd_of_changes s new_state hc, List.countP_append, List.countP_append,
      countP_change_events, countP_down_events, countP_up_events]
    have h1 : s.on_change.countP (fun h => isDownAtEvent bz bt (Event.change h.1)) = 0 :=
      List.countP_eq_zero.mpr (fun a _ => by simp [isDownAtEvent])
    have h3 : List.map (fun p =>
          s.on_button_up.countP (fun h => isDownAtEvent bz bt (Event.buttonUp h.1 p.1 p.2)))
          (button_ups s.state new_state) =
        List.map (fun _ => (0 : Nat)) (button_ups s.state new_state) :=
      List.map_congr_left (fun p _ =>
        List.countP_eq_zero.mpr (fun a _ => by simp [isDownAtEvent]))
    have h2 : List.map (fun p =>
          s.on_button_down.countP
              (fun h => isDownAtEvent bz bt (Event.buttonDown h.1 p.1 p.2)) +
            if p.2 = 0 then
              s.on_buzz.countP (fun h => isDownAtEvent bz bt (Event.buzz h.1 p.1)) else 0)
          (button_downs s.state new_state) =
        List.map (fun p => if p = (bz, bt) then s.on_button_down.length else 0)
          (button_downs s.state new_state) := by
      apply List.map_congr_left
      intro p _
      have hz : s.on_buzz.countP (fun h => isDownAtEvent bz bt (Event.buzz h.1 p.1)) = 0 :=
        List.countP_eq_zero.mpr (fun a _ => by simp [isDownAtEvent])
      rw [hz, ite_self, Nat.add_zero]
      by_cases hpb : p.1 = bz
      · by_cases hpt : p.2 = bt
        · have hbd : s.on_button_down.countP
              (fun h => isDownAtEvent bz bt (Event.buttonDown h.1 p.1 p.2)) =
                s.on_button_down.length := by
            rw [show (fun (h : String × Nat) => isDownAtEvent bz bt
                (Event.buttonDown h.1 p.1 p.2)) =
              (fun (_ : String × Nat) => (p.1 == bz && p.2 == bt)) from rfl, hpb, hpt]
            simp [List.countP_true]
          rw [hbd, if_pos (by rw [Prod.ext_iff]; exact ⟨hpb, hpt⟩)]
        · have hbd : s.on_button_down.countP
              (fun h => isDownAtEvent bz bt (Event.buttonDown h.1 p.1 p.2)) = 0 :=
            List.countP_eq_zero.mpr (fun a _ => by simp [isDownAtEvent, hpt])
          rw [hbd, if_neg (by rw [Prod.ext_iff]; exact fun hco => hpt hco.2)]
      · have hbd : s.on_button_down.countP
            (fun h => isDownAtEvent bz bt (Event.buttonDown h.1 p.1 p.2)) = 0 :=
          List.countP_eq_zero.mpr (fun a _ => by simp [isDownAtEvent, hpb])
        rw [hbd, if_neg (by rw [Prod.ext_iff]; exact fun hco => hpb hco.1)]
    rw [h1, h2, h3, sum_map_const,
      sum_map_ite_eq _ (nodup_button_downs s.state new_state) (bz, bt)
        s.on_button_down.length,
      Nat.mul_zero, Nat.add_zero, Nat.zero_add]
    by_cases hm : (bz, bt) ∈ button_downs s.state new_state
    · rw [if_pos hm, if_pos hm]
    · rw [if_neg hm, if_neg hm]

/-! ## The dispatch claims -/

/-- Claim C2: over one state-update step from the stored grid to a new grid,
every registered change-handler fires exactly once (in registry order) when at
least one of the 20 cells differs, no handler of any registry fires when no
cell differs, the number of button-down firings equals (number of registered
button-down handlers) × (number of cells with old = false and new = true),
and the number of button-up firings equals (number of registered button-up
handlers) × (number of cells with old = true and new = false). -/
theorem dispatch_counts (s : Session) (new_state : Grid) :
    (¬ cellsDiffer s.state new_state → (handle_event s new_state).2 = []) ∧
    (cellsDiffer s.state new_state →
      (handle_event s new_state).2.filter isChangeEvent = change_events s.on_change) ∧
    (handle_event s new_state).2.countP isDownEvent =
      s.on_button_down.length * numDownTransitions s.state new_state ∧
    (handle_event s new_state).2.countP isUpEvent =
      s.on_button_up.length * numUpTransitions s.state new_state := by
  refine ⟨?_, ?_, trace_countP_down s new_state, trace_countP_up s new_state⟩
  · intro hnd
    have hc := (no_transitions_iff s.state new_state).mpr hnd
    rw [handle_event_snd, hc.1, hc.2]
    rfl
  · intro hdiff
    have hc : ¬(button_downs s.state new_state = [] ∧ button_ups s.state new_state = []) :=
      fun hcc => (no_transitions_iff s.state new_state).mp hcc hdiff
    rw [handle_event_snd_of_changes s new_state hc, List.filter_append, List.filter_append]
    have hA : (change_events s.on_change).filter isChangeEvent = change_events s.on_change :=
      List.filter_eq_self.mpr (fun e he => by
        obtain ⟨lab, rfl⟩ := mem_change_events _ _ he
        rfl)
    have hB : (down_events s.on_button_down s.on_buzz
        (button_downs s.state new_state)).filter isChangeEvent = [] :=
      List.filter_eq_nil_iff.mpr (fun e he => by
        rcases mem_down_events _ _ _ _ he with ⟨lab, p, _, rfl⟩ | ⟨lab, p, _, _, rfl⟩ <;>
          simp [isChangeEvent])
    have hC : (up_events s.on_button_up (button_ups s.state new_state)).filter
        isChangeEvent = [] :=
      List.filter_eq_nil_iff.mpr (fun e he => by
        obtain ⟨lab, p, _, rfl⟩ := mem_up_events _ _ _ he
        simp [isChangeEvent])
    rw [hA, hB, hC, List.append_nil, List.append_nil]

/-- Witness for C2: at the sample session and grid the change-handler fires
exactly once, and the claim theorem applies. -/
theorem dispatch_counts_witness :
    cellsDiffer sampleSession.state sampleGrid ∧
    (handle_event sampleSession sampleGrid).2.filter isChangeEvent =
      change_events sampleSession.on_change :=
  ⟨by decide, (dispatch_counts sampleSession sampleGrid).2.1 (by decide)⟩

/-- Claim C3: for a state-update step and a buzzer index bz < 4, when cell
(bz, 0) transitions false→true every registered buzz-handler fires exactly
once for it, in addition to — not instead of — the button-down firings for
the same cell (each button-down handler still fires once for cell (bz, 0));
and when cell (bz, 0) does not so transition no buzz-handler fires for buzzer
bz at all, buzzes being triggered only by the primary button (index 0). -/
theorem dispatch_buzz (s : Session) (new_state : Grid) (bz : Nat) (hbz : bz < 4) :
    (cell s.state bz 0 = false ∧ cell new_state bz 0 = true →
      (handle_event s new_state).2.countP (isBuzzAtEvent bz) = s.on_buzz.length ∧
      (handle_event s new_state).2.countP (isDownAtEvent bz 0) =
        s.on_button_down.length) ∧
    (¬(cell s.state bz 0 = false ∧ cell new_state bz 0 = true) →
      (handle_event s new_state).2.countP (isBuzzAtEvent bz) = 0) := by
  constructor
  · rintro ⟨ho, hn⟩
    have hmem : (bz, 0) ∈ button_downs s.state new_state :=
      (mem_button_downs s.state new_state bz 0).mpr ⟨hbz, by omega, ho, hn⟩
    rw [trace_countP_buzzAt, trace_countP_downAt, if_pos hmem, if_pos hmem]
    exact ⟨rfl, rfl⟩
  · intro hneg
    have hmem : (bz, 0) ∉ button_downs s.state new_state := fun hm => by
      have h := (mem_button_downs s.state new_state bz 0).mp hm
      exact hneg ⟨h.2.2.1, h.2.2.2⟩
    rw [trace_countP_buzzAt, if_neg hmem]

/-- Witness for C3 at the sample session and grid, where cell (0, 0)
transitions false→true. -/
theorem dispatch_buzz_witness :
    (0 : Nat) < 4 ∧
    (cell sampleSession.state 0 0 = false ∧ cell sampleGrid 0 0 = true) ∧
    (handle_event sampleSession sampleGrid).2.countP (isBuzzAtEvent 0) =
      sampleSession.on_buzz.length ∧
    (handle_event sampleSession sampleGrid).2.countP (isDownAtEvent 0 0) =
      sampleSession.on_button_down.length :=
  ⟨by decide, ⟨by decide, by decide⟩,
    (dispatch_buzz sampleSession sampleGrid 0 (by decide)).1 ⟨by decide, by decide⟩⟩

/-- Claim C4: within one state-update step the dispatch trace is phase-ordered
— every change-handler invocation precedes every button-down/buzz invocation,
which precede every button-up invocation — and every button-down, buzz and
button-up invocation in the trace corresponds to a transition between the
previous stored grid and the new grid, the transition sets being fixed
functions of that pair computed before any handler runs. -/
theorem dispatch_order (s : Session) (new_state : Grid) :
    (handle_event s new_state).2.Pairwise (fun a b => phase a ≤ phase b) ∧
    (∀ lab bz bt, Event.buttonDown lab bz bt ∈ (handle_event s new_state).2 →
      cell s.state bz bt = false ∧ cell new_state bz bt = true) ∧
    (∀ lab bz, Event.buzz lab bz ∈ (handle_event s new_state).2 →
      cell s.state bz 0 = false ∧ cell new_state bz 0 = true) ∧
    (∀ lab bz bt, Event.buttonUp lab bz bt ∈ (handle_event s new_state).2 →
      cell s.state bz bt = true ∧ cell new_state bz bt = false) := by
  by_cases hc : button_downs s.state new_state = [] ∧ button_ups s.state new_state = []
  · have htr : (handle_event s new_state).2 = [] := by
      rw [handle_event_snd, hc.1, hc.2]
      rfl
    rw [htr]
    exact ⟨List.Pairwise.nil,
      fun lab bz bt h => absurd h (List.not_mem_nil _),
      fun lab bz h => absurd h (List.not_mem_nil _),
      fun lab bz bt h => absurd h (List.not_mem_nil _)⟩
  · rw [handle_event_snd_of_changes s new_state hc]
    refine ⟨?_, ?_, ?_, ?_⟩
    · refine List.pairwise_append.mpr ⟨List.pairwise_append.mpr ⟨?_, ?_, ?_⟩, ?_, ?_⟩
      · exact List.pairwise_of_forall_mem_list (fun a ha b hb => by
          obtain ⟨la, rfl⟩ := mem_change_events _ _ ha
          exact Nat.zero_le _)
      · exact List.pairwise_of_forall_mem_list (fun a ha b hb => by
          rcases mem_down_events _ _ _ _ ha with ⟨la, p, _, rfl⟩ | ⟨la, p, _, _, rfl⟩ <;>
            rcases mem_down_events _ _ _ _ hb with ⟨lb, q, _, rfl⟩ | ⟨lb, q, _, _, rfl⟩ <;>
            exact Nat.le_refl _)
      · intro a ha b hb
        obtain ⟨la, rfl⟩ := mem_change_events _ _ ha
        exact Nat.zero_le _
      · exact List.pairwise_of_forall_mem_list (fun a ha b hb => by
          obtain ⟨la, p, _, rfl⟩ := mem_up_events _ _ _ ha
          obtain ⟨lb, q, _, rfl⟩ := mem_up_events _ _ _ hb
          exact Nat.le_refl _)
      · intro a ha b hb
        obtain ⟨lb, q, _, rfl⟩ := mem_up_events _ _ _ hb
        rcases List.mem_append.mp ha with ha | ha
        · obtain ⟨la, rfl⟩ := mem_change_events _ _ ha
          exact Nat.zero_le _
        · rcases mem_down_events _ _ _ _ ha with ⟨la, p, _, rfl⟩ | ⟨la, p, _, _, rfl⟩ <;>
            exact Nat.le_succ 1
    · intro lab bz bt h
      rcases List.mem_append.mp h with h | h
      · rcases List.mem_append.mp h with h | h
        · obtain ⟨la, heq⟩ := mem_change_events _ _ h
          exact Event.noConfusion heq
        · rcases mem_down_events _ _ _ _ h with ⟨la, p, hp, heq⟩ | ⟨la, p, _, _, heq⟩
          · injection heq with h1 h2 h3
            subst h2
            subst h3
            have hm := (mem_button_downs s.state new_state p.1 p.2).mp
              (by rw [Prod.mk.eta]; exact hp)
            exact ⟨hm.2.2.1, hm.2.2.2⟩
          · exact Event.noConfusion heq
      · obtain ⟨la, p, _, heq⟩ := mem_up_events _ _ _ h
        exact Event.noConfusion heq
    · intro lab bz h
      rcases List.mem_append.mp h with h | h
      · rcases List.mem_append.mp h with h | h
        · obtain ⟨la, heq⟩ := mem_change_events _ _ h
          exact Event.noConfusion heq
        · rcases mem_down_events _ _ _ _ h with ⟨la, p, _, heq⟩ | ⟨la, p, hp, h0, heq⟩
          · exact Event.noConfusion heq
          · injection heq with h1 h2
            subst h2
            have hm := (mem_button_downs s.state new_state p.1 p.2).mp
              (by rw [Prod.mk.eta]; exact hp)
            rw [h0] at hm
            exact ⟨hm.2.2.1, hm.2.2.2⟩
      · obtain ⟨la, p, _, heq⟩ := mem_up_events _ _ _ h
        exact Event.noConfusion heq
    · intro lab bz bt h
      rcases List.mem_append.mp h with h | h
      · rcases List.mem_append.mp h with h | h
        · obtain ⟨la, heq⟩ := mem_change_events _ _ h
          exact Event.noConfusion heq
        · rcases mem_down_events _ _ _ _ h with ⟨la, p, _, heq⟩ | ⟨la, p, _, _, heq⟩ <;>
            exact Event.noConfusion heq
      · obtain ⟨la, p, hp, heq⟩ := mem_up_events _ _ _ h
        injection heq with h1 h2 h3
        subst h2
        subst h3
        have hm := (mem_button_ups s.state new_state p.1 p.2).mp
          (by rw [Prod.mk.eta]; exact hp)
        exact ⟨hm.2.2.1, hm.2.2.2⟩

/-- Witness for C4: the phase ordering at the sample session and grid, by
applying the claim theorem at that concrete input. -/
theorem dispatch_order_witness :
    (handle_event sampleSession sampleGrid).2.Pairwise (fun a b => phase a ≤ phase b) :=
  (dispatch_order sampleSession sampleGrid).1

/-! ## The light claims -/

/-- Claim C5: for every 4-element boolean list [a,b,c,d], after a successful
`set_lights([a,b,c,d])`, `get_lights_state()` returns [a,b,c,d] exactly, and
the write issued through the handle is exactly the 8-byte command
[0x00, 0x00, L0, L1, L2, L3, 0x00, 0x00] where Li is 0xFF if element i is
true and 0x00 if it is false. -/
theorem set_lights_spec (s : Session) (a b c d : Bool) :
    get_lights_state (set_lights s [a, b, c, d] true).1 = [a, b, c, d] ∧
    (set_lights s [a, b, c, d] true).1.writes = s.writes ++
      [[0x00, 0x00, (if a then 0xFF else 0x00), (if b then 0xFF else 0x00),
        (if c then 0xFF else 0x00), (if d then 0xFF else 0x00), 0x00, 0x00]] ∧
    ([0x00, 0x00, (if a then 0xFF else 0x00), (if b then 0xFF else 0x00),
        (if c then 0xFF else 0x00), (if d then 0xFF else 0x00), 0x00, 0x00] :
      List Nat).length = 8 :=
  ⟨rfl, rfl, rfl⟩

/-- Counterexample to C6 as stated: starting from the sample session (all
lights off), `set_lights([true,true,true,true])` with a failing write does
surface the error, but the stored Light State is left holding the new value,
different from its value before the call — it is not rolled back. -/
theorem set_lights_rollback_counterexample :
    (set_lights sampleSession [true, true, true, true] false).2 = false ∧
    get_lights_state (set_lights sampleSession [true, true, true, true] false).1 ≠
      get_lights_state sampleSession := by
  refine ⟨rfl, ?_⟩
  decide

/-- Claim C6 as amended: if the transport write performed by `set_lights`
fails, the error is surfaced to the caller and no write is recorded, but the
stored Light State was assigned the new value before the write was attempted,
so after the failure it holds the new value — it is not rolled back to its
value before the call. -/
theorem set_lights_write_failure (s : Session) (lights : List Bool) :
    (set_lights s lights false).2 = false ∧
    get_lights_state (set_lights s lights false).1 = lights ∧
    (set_lights s lights false).1.writes = s.writes :=
  ⟨rfl, rfl, rfl⟩

/-- Claim C9: for an index i < 4 on a 4-element stored Light State,
`set_light(i, v)` sets element i of the stored Light State to v, leaves every
other element unchanged, and issues one full 4-element light write — the
8-byte command for the complete updated sequence — never a partial write. -/
theorem set_light_spec (s : Session) (i : Nat) (v : Bool) (hi : i < 4)
    (hlen : s.lights.length = 4) :
    (get_lights_state (set_light s i v true).1).getD i false = v ∧
    (∀ j, j ≠ i →
      (get_lights_state (set_light s i v true).1).getD j false = s.lights.getD j false) ∧
    (set_light s i v true).1.writes = s.writes ++ [lightCommand (s.lights.set i v)] ∧
    (lightCommand (s.lights.set i v)).length = 8 := by
  refine ⟨?_, ?_, rfl, ?_⟩
  · show (s.lights.set i v).getD i false = v
    rw [List.getD_eq_getElem?_getD, List.getElem?_set_self (by rw [hlen]; exact hi)]
    rfl
  · intro j hj
    show (s.lights.set i v).getD j false = s.lights.getD j false
    rw [List.getD_eq_getElem?_getD, List.getD_eq_getElem?_getD,
      List.getElem?_set_ne (fun hh => hj hh.symm)]
  · simp [lightCommand, List.length_set, hlen]

/-- Witness for C9 at the sample session, setting light 2 on. -/
theorem set_light_spec_witness :
    (2 : Nat) < 4 ∧ sampleSession.lights.length = 4 ∧
    ((get_lights_state (set_light sampleSession 2 true true).1).getD 2 false = true ∧
      (∀ j, j ≠ 2 →
        (get_lights_state (set_light sampleSession 2 true true).1).getD j false =
          sampleSession.lights.getD j false) ∧
      (set_light sampleSession 2 true true).1.writes =
        sampleSession.writes ++ [lightCommand (sampleSession.lights.set 2 true)] ∧
      (lightCommand (sampleSession.lights.set 2 true)).length = 8) :=
  ⟨by decide, by decide, set_light_spec sampleSession 2 true (by decide) (by decide)⟩

/-! ## Association-list bookkeeping for the construction claims -/

lemma alookup_eq_none {κ α : Type} [DecidableEq κ] (l : List (κ × α)) (k : κ)
    (h : ∀ e ∈ l, e.1 ≠ k) : alookup l k = none := by
  induction l with
  | nil => rfl
  | cons e rest ih =>
    obtain ⟨k', v'⟩ := e
    simp only [alookup]
    rw [if_neg (h (k', v') (List.mem_cons_self _ _))]
    exact ih (fun e he => h e (List.mem_cons_of_mem _ he))

lemma alookup_append_last {κ α : Type} [DecidableEq κ] (l : List (κ × α)) (k : κ) (v : α)
    (h : alookup l k = none) : alookup (l ++ [(k, v)]) k = some v := by
  induction l with
  | nil => simp [alookup]
  | cons e rest ih =>
    obtain ⟨k', v'⟩ := e
    simp only [alookup, List.cons_append] at h ⊢
    by_cases hk : k' = k
    · rw [if_pos hk] at h
      exact Option.noConfusion h
    · rw [if_neg hk] at h ⊢
      exact ih h

lemma alookup_append_single_ne {κ α : Type} [DecidableEq κ] (l : List (κ × α))
    (p q : κ) (v : α) (h : q ≠ p) : alookup (l ++ [(p, v)]) q = alookup l q := by
  induction l with
  | nil =>
    simp only [List.nil_append, alookup]
    rw [if_neg (fun hh => h hh.symm)]
  | cons e rest ih =>
    obtain ⟨k', v'⟩ := e
    simp only [List.cons_append, alookup]
    by_cases hk : k' = q
    · rw [if_pos hk, if_pos hk]
    · rw [if_neg hk, if_neg hk]
      exact ih

lemma emptyWorld_WF : emptyWorld.WF := by
  refine ⟨fun e he => absurd he (List.not_mem_nil e), ?_, ?_, ?_⟩
  · intro p i h
    exact Option.noConfusion h
  · intro p q i h h'
    exact Option.noConfusion h
  · intro p i h
    exact Option.noConfusion h

/-! ## The construction claims -/

/-- Claim C7: constructing a session for a Device Path with no existing
session opens the transport at that path, initializes the stored Button State
to the all-false 4×5 grid, initializes the stored Light State to all-off and
issues the corresponding all-off 8-byte write, so that immediately after
construction `get_buttons_state` returns the all-false grid and
`get_lights_state` returns [false, false, false, false]. -/
theorem construct_fresh (w : World) (path : Bytes) (lab : Option String)
    (hfresh : alookup w.existing_buzzer_sets path = none)
    (hids : ∀ e ∈ w.sessions, e.1 < w.nextId) :
    ∃ sess, alookup (construct w path lab).1.sessions (construct w path lab).2 =
        some sess ∧
      sess.opens = [path] ∧
      get_buttons_state sess = List.replicate 4 (List.replicate 5 false) ∧
      get_lights_state sess = [false, false, false, false] ∧
      sess.writes = [[0, 0, 0, 0, 0, 0, 0, 0]] := by
  have hcon : construct w path lab =
      ({ existing_buzzer_sets := w.existing_buzzer_sets ++ [(path, w.nextId)]
         sessions := w.sessions ++ [(w.nextId, init_session path lab)]
         nextId := w.nextId + 1 }, w.nextId) := by
    simp [construct, hfresh]
  refine ⟨init_session path lab, ?_, rfl, rfl, rfl, rfl⟩
  rw [hcon]
  exact alookup_append_last w.sessions w.nextId (init_session path lab)
    (alookup_eq_none w.sessions w.nextId (fun e he => Nat.ne_of_lt (hids e he)))

/-- Witness for C7: constructing the first session in the empty world. -/
theorem construct_fresh_witness :
    alookup emptyWorld.existing_buzzer_sets [5] = none ∧
    (∀ e ∈ emptyWorld.sessions, e.1 < emptyWorld.nextId) ∧
    (∃ sess, alookup (construct emptyWorld [5] none).1.sessions
        (construct emptyWorld [5] none).2 = some sess ∧
      sess.opens = [[5]] ∧
      get_buttons_state sess = List.replicate 4 (List.replicate 5 false) ∧
      get_lights_state sess = [false, false, false, false] ∧
      sess.writes = [[0, 0, 0, 0, 0, 0, 0, 0]]) :=
  ⟨rfl, fun e he => absurd he (List.not_mem_nil e),
    construct_fresh emptyWorld [5] none rfl (fun e he => absurd he (List.not_mem_nil e))⟩

/-- Claim C8: in a well-formed world, a second construction call with the
same Device Path returns the same instance as the first and leaves the world
unchanged (initialization is not re-run), while a subsequent construction
call with a different Device Path returns a distinct instance. -/
theorem construct_singleton (w : World) (hWF : w.WF) (p q : Bytes)
    (lab lab' : Option String) :
    ((construct (construct w p lab).1 p lab').2 = (construct w p lab).2 ∧
      (construct (construct w p lab).1 p lab').1 = (construct w p lab).1) ∧
    (p ≠ q →
      (construct (construct w p lab).1 q lab').2 ≠ (construct w p lab).2) := by
  obtain ⟨hids, hinit, hinj, hreg⟩ := hWF
  cases hl : alookup w.existing_buzzer_sets p with
  | some i =>
    obtain ⟨s, hs, hsi⟩ := hinit p i hl
    have h1 : construct w p lab = (w, i) := by
      simp [construct, hl, hs, hsi]
    have h1a : (construct w p lab).1 = w := by rw [h1]
    have h1b : (construct w p lab).2 = i := by rw [h1]
    rw [h1a, h1b]
    constructor
    · have h2 : construct w p lab' = (w, i) := by
        simp [construct, hl, hs, hsi]
      exact ⟨by rw [h2], by rw [h2]⟩
    · intro hpq
      cases hq : alookup w.existing_buzzer_sets q with
      | some j =>
        obtain ⟨t, ht, hti⟩ := hinit q j hq
        have h2 : construct w q lab' = (w, j) := by
          simp [construct, hq, ht, hti]
        have h2b : (construct w q lab').2 = j := by rw [h2]
        rw [h2b]
        intro hij
        exact hpq (hinj p q i hl (hij ▸ hq))
      | none =>
        have h2 : (construct w q lab').2 = w.nextId := by
          simp [construct, hq]
        rw [h2]
        have := hreg p i hl
        omega
  | none =>
    have h1 : construct w p lab =
        ({ existing_buzzer_sets := w.existing_buzzer_sets ++ [(p, w.nextId)]
           sessions := w.sessions ++ [(w.nextId, init_session p lab)]
           nextId := w.nextId + 1 }, w.nextId) := by
      simp [construct, hl]
    have h1a : (construct w p lab).1 =
        ({ existing_buzzer_sets := w.existing_buzzer_sets ++ [(p, w.nextId)]
           sessions := w.sessions ++ [(w.nextId, init_session p lab)]
           nextId := w.nextId + 1 } : World) := by rw [h1]
    have h1b : (construct w p lab).2 = w.nextId := by rw [h1]
    rw [h1a, h1b]
    have hlp : alookup (w.existing_buzzer_sets ++ [(p, w.nextId)]) p = some w.nextId :=
      alookup_append_last _ _ _ hl
    have hls : alookup (w.sessions ++ [(w.nextId, init_session p lab)]) w.nextId =
        some (init_session p lab) :=
      alookup_append_last _ _ _
        (alookup_eq_none _ _ (fun e he => Nat.ne_of_lt (hids e he)))
    constructor
    · have hinit2 : (init_session p lab).initialised = true := rfl
      constructor
      · simp [construct, hlp, hls, hinit2]
      · simp [construct, hlp, hls, hinit2]
    · intro hpq
      cases hq : alookup (w.existing_buzzer_sets ++ [(p, w.nextId)]) q with
      | some j =>
        have hq' : alookup w.existing_buzzer_sets q = some j := by
          rw [alookup_append_single_ne _ _ _ _ (Ne.symm hpq)] at hq
          exact hq
        have hj : j < w.nextId := hreg q j hq'
        obtain ⟨t, ht, hti⟩ := hinit q j hq'
        have ht' : alookup (w.sessions ++ [(w.nextId, init_session p lab)]) j = some t := by
          rw [alookup_append_single_ne _ _ _ _ (Nat.ne_of_lt hj)]
          exact ht
        have h2 : (construct
            ({ existing_buzzer_sets := w.existing_buzzer_sets ++ [(p, w.nextId)]
               sessions := w.sessions ++ [(w.nextId, init_session p lab)]
               nextId := w.nextId + 1 } : World) q lab').2 = j := by
          simp [construct, hq, ht', hti]
        rw [h2]
        omega
      | none =>
        have h2 : (construct
            ({ existing_buzzer_sets := w.existing_buzzer_sets ++ [(p, w.nextId)]
               sessions := w.sessions ++ [(w.nextId, init_session p lab)]
               nextId := w.nextId + 1 } : World) q lab').2 = w.nextId + 1 := by
          simp [construct, hq]
        rw [h2]
        omega

/-- Witness for C8: two constructions in the empty world, with paths [1] and
[2]. -/
theorem construct_singleton_witness :
    (((construct (construct emptyWorld [1] none).1 [1] none).2 =
        (construct emptyWorld [1] none).2 ∧
      (construct (construct emptyWorld [1] none).1 [1] none).1 =
        (construct emptyWorld [1] none).1) ∧
    (([1] : Bytes) ≠ [2] →
      (construct (construct emptyWorld [1] none).1 [2] none).2 ≠
        (construct emptyWorld [1] none).2)) :=
  construct_singleton emptyWorld emptyWorld_WF [1] [2] none none

lemma alookup_dictSet {κ α : Type} [DecidableEq κ] (d : List (κ × α)) (k0 k : κ) (v : α) :
    alookup (dictSet d k0 v) k = if k = k0 then some v else alookup d k := by
  induction d with
  | nil =>
    simp only [dictSet, alookup]
    by_cases h : k = k0
    · rw [if_pos h.symm, if_pos h]
    · rw [if_neg (fun hh => h hh.symm), if_neg h]
  | cons e rest ih =>
    obtain ⟨k', v'⟩ := e
    simp only [dictSet]
    by_cases he : k' = k0
    · rw [if_pos he]
      simp only [alookup]
      by_cases h : k = k0
      · rw [if_pos h.symm, if_pos h]
      · rw [if_neg (fun hh => h hh.symm), if_neg h,
          if_neg (fun hh => h (hh.symm.trans he))]
    · rw [if_neg he]
      simp only [alookup]
      by_cases h : k' = k
      · rw [if_pos h, if_neg (fun hk => he (h.trans hk)), if_pos h]
      · simp only [if_neg h]
        rw [ih]

/-! ## The registration claim -/

/-- Claim C10: for each of the four registration operations, supplying the
empty string as the label ignores it: the callback is registered under the
auto-generated label (the string identity of the callback), that label — not
the empty string — is returned, and the empty string is not used as a
registry key (the registry's entry at key "" is unchanged). -/
theorem registration_empty_label (s : Session) (handler : Nat) (handlerStr : String)
    (hne : handlerStr ≠ "") :
    ((on_change s handler handlerStr (some "")).2 = handlerStr ∧
      alookup (on_change s handler handlerStr (some "")).1.on_change handlerStr =
        some handler ∧
      alookup (on_change s handler handlerStr (some "")).1.on_change "" =
        alookup s.on_change "") ∧
    ((on_buzz s handler handlerStr (some "")).2 = handlerStr ∧
      alookup (on_buzz s handler handlerStr (some "")).1.on_buzz handlerStr =
        some handler ∧
      alookup (on_buzz s handler handlerStr (some "")).1.on_buzz "" =
        alookup s.on_buzz "") ∧
    ((on_button_down s handler handlerStr (some "")).2 = handlerStr ∧
      alookup (on_button_down s handler handlerStr (some "")).1.on_button_down
        handlerStr = some handler ∧
      alookup (on_button_down s handler handlerStr (some "")).1.on_button_down "" =
        alookup s.on_button_down "") ∧
    ((on_button_up s handler handlerStr (some "")).2 = handlerStr ∧
      alookup (on_button_up s handler handlerStr (some "")).1.on_button_up
        handlerStr = some handler ∧
      alookup (on_button_up s handler handlerStr (some "")).1.on_button_up "" =
        alookup s.on_button_up "") := by
  have heff : effective_label handlerStr (some "") = handlerStr := by
    simp [effective_label]
  have hne' : ("" : String) ≠ handlerStr := Ne.symm hne
  refine ⟨⟨?_, ?_, ?_⟩, ⟨?_, ?_, ?_⟩, ⟨?_, ?_, ?_⟩, ⟨?_, ?_, ?_⟩⟩ <;>
    simp [on_change, on_buzz, on_button_down, on_button_up, register, heff,
      alookup_dictSet, hne']

/-- Witness for C10 with the auto-generated label "fn". -/
theorem registration_empty_label_witness :
    ("fn" : String) ≠ "" ∧
    (((on_change sampleSession 9 "fn" (some "")).2 = "fn" ∧
      alookup (on_change sampleSession 9 "fn" (some "")).1.on_change "fn" = some 9 ∧
      alookup (on_change sampleSession 9 "fn" (some "")).1.on_change "" =
        alookup sampleSession.on_change "") ∧
    ((on_buzz sampleSession 9 "fn" (some "")).2 = "fn" ∧
      alookup (on_buzz sampleSession 9 "fn" (some "")).1.on_buzz "fn" = some 9 ∧
      alookup (on_buzz sampleSession 9 "fn" (some "")).1.on_buzz "" =
        alookup sampleSession.on_buzz "") ∧
    ((on_button_down sampleSession 9 "fn" (some "")).2 = "fn" ∧
      alookup (on_button_down sampleSession 9 "fn" (some "")).1.on_button_down
        "fn" = some 9 ∧
      alookup (on_button_down sampleSession 9 "fn" (some "")).1.on_button_down "" =
        alookup sampleSession.on_button_down "") ∧
    ((on_button_up sampleSession 9 "fn" (some "")).2 = "fn" ∧
      alookup (on_button_up sampleSession 9 "fn" (some "")).1.on_button_up
        "fn" = some 9 ∧
      alookup (on_button_up sampleSession 9 "fn" (some "")).1.on_button_up "" =
        alookup sampleSession.on_button_up "")) :=
  ⟨by decide, registration_empty_label sampleSession 9 "fn" (by decide)⟩

end PyBuzzers
